import Mathlib

/-!
Shallow embedding of `src/src/components/Connector.jsx`, the single React
component of the repository.  The component keeps three pieces of view
state (`accounts`, `chainId`, `isConnected`), obtains an EIP-1193
provider handle once at load time, and exposes five user actions
(`connect`, `toggleChain`, `addChain`, `transferAccount`, `disconnect`)
plus two provider-event handlers (`handleAccountsChanged`,
`handleChainChanged`).

Each action is modelled as a pure function from the prior view state
(together with the provider handle and, where the action awaits provider
responses, the responses the provider gives on this invocation) to the
new view state paired with the list of requests the action issued to the
provider, in order.  Console logging has no effect on state or requests
and is not modelled.
-/

namespace Connector

/-- View state of the component: the three `useState` hooks
(`accounts`, `chainId`, `isConnected`) of `Connector.jsx`. -/
structure ViewState where
  accounts : List String
  chainId : String
  isConnected : Bool
deriving DecidableEq, Repr

/-- Initial values of the three hooks: `useState([])`, `useState('')`,
`useState(false)`. -/
def initialState : ViewState :=
  { accounts := [], chainId := "", isConnected := false }

/-- Constant `MAINNET_CHAIN_ID` in the source. -/
def MAINNET_CHAIN_ID : String := "0x1"

/-- Constant `SEPOLIA_CHAIN_ID` in the source. -/
def SEPOLIA_CHAIN_ID : String := "0xaa36a7"

/-- Error object a rejected provider request carries: a message and an
optional numeric code (`error.code`, compared against 4902 in
`toggleChain`). -/
structure ProviderError where
  message : String
  code : Option Int
deriving DecidableEq, Repr

/-- Requests the component can issue to the provider via
`provider.request`, with the parameters the source passes. -/
inductive Request where
  | eth_requestAccounts
  | eth_chainId
  | wallet_switchEthereumChain (chainId : String)
  | wallet_addEthereumChain (chainId chainName : String)
      (rpcUrls : List String) (currencyName currencySymbol : String)
      (decimals : Nat) (blockExplorerUrls : List String)
  | eth_sendTransaction (fromAddr toAddr value : String)
deriving DecidableEq, Repr

/-- Responses the provider gives to the requests awaited during one
action invocation.  Each field is the outcome of the corresponding
`await provider.request` call: `Except.ok` a value, or `Except.error`
a rejection. -/
structure ProviderBehaviour where
  accountsResult : Except ProviderError (List String)
  chainIdResult : Except ProviderError String
  switchResult : Except ProviderError Unit
  addChainResult : Except ProviderError Unit
  sendTxResult : Except ProviderError String
deriving Repr

/-- The `connect` action (`Connector.jsx` lines 53-72).  Guards on the
provider handle; awaits `eth_requestAccounts`; on success stores the
returned list and sets the connection flag true, then awaits
`eth_chainId` and on success stores it.  The `catch` block only logs, so
a rejection leaves whatever state updates already ran in place. -/
def connect (provider : Option ProviderBehaviour) (s : ViewState) :
    ViewState × List Request :=
  match provider with
  | none => (s, [])
  | some p =>
    match p.accountsResult with
    | .error _ => (s, [.eth_requestAccounts])
    | .ok result =>
      let s1 := { s with accounts := result, isConnected := true }
      match p.chainIdResult with
      | .error _ => (s1, [.eth_requestAccounts, .eth_chainId])
      | .ok currentChainId =>
          ({ s1 with chainId := currentChainId },
           [.eth_requestAccounts, .eth_chainId])

/-- The `toggleChain` action (lines 75-95).  Guards on the provider
handle; computes the target chain from the stored `chainId` and issues a
single `wallet_switchEthereumChain` request.  The `catch` block only
logs (with an extra hint when `error.code === 4902`), so the state is
never changed. -/
def toggleChain (provider : Option ProviderBehaviour) (s : ViewState) :
    ViewState × List Request :=
  match provider with
  | none => (s, [])
  | some _ =>
    let targetChainId :=
      if s.chainId = SEPOLIA_CHAIN_ID then MAINNET_CHAIN_ID else SEPOLIA_CHAIN_ID
    (s, [.wallet_switchEthereumChain targetChainId])

/-- The `addChain` action (lines 98-122).  Guards on the provider handle
and issues a single `wallet_addEthereumChain` request with the
hard-coded Mantle descriptor; the `catch` block only logs. -/
def addChain (provider : Option ProviderBehaviour) (s : ViewState) :
    ViewState × List Request :=
  match provider with
  | none => (s, [])
  | some _ =>
    (s, [.wallet_addEthereumChain "0x1388" "Mantle" ["https://rpc.mantle.xyz"]
          "Mantle" "MNT" 18 ["https://mantlescan.xyz"]])

/-- Fixed recipient of the `transferAccount` action. -/
def TRANSFER_RECIPIENT : String := "0x5b522A979ea2a5121b651756CD4274C92386f8C2"

/-- Fixed value (hex wei) of the `transferAccount` action. -/
def TRANSFER_VALUE : String := "0x38D7EA4C68000"

/-- The `transferAccount` action (lines 125-146).  Returns early when no
provider handle exists or the account list is empty, then when the
stored chain id is not Sepolia; otherwise issues a single
`eth_sendTransaction` request from `accounts[0]` to the fixed recipient
with the fixed value.  The `catch` block only logs; no state update
exists anywhere in the function. -/
def transferAccount (provider : Option ProviderBehaviour) (s : ViewState) :
    ViewState × List Request :=
  match provider with
  | none => (s, [])
  | some _ =>
    if s.accounts = [] then (s, [])
    else if s.chainId ≠ SEPOLIA_CHAIN_ID then (s, [])
    else
      (s, [.eth_sendTransaction (s.accounts.headD "") TRANSFER_RECIPIENT
            TRANSFER_VALUE])

/-- The `disconnect` action (lines 149-157).  Guards on the provider
handle, then resets the three hooks to their initial values without
issuing any provider request. -/
def disconnect (provider : Option ProviderBehaviour) (s : ViewState) :
    ViewState × List Request :=
  match provider with
  | none => (s, [])
  | some _ =>
    ({ accounts := [], chainId := "", isConnected := false }, [])

/-- The `accountsChanged` event handler (lines 23-32).  A non-empty
payload replaces the account list and sets the connection flag true; an
empty payload clears the list and sets the flag false. -/
def handleAccountsChanged (payload : List String) (s : ViewState) : ViewState :=
  if payload.length > 0 then
    { s with accounts := payload, isConnected := true }
  else
    { s with accounts := [], isConnected := false }

/-- The `chainChanged` event handler (lines 34-37): stores the payload
verbatim as the new chain id. -/
def handleChainChanged (payload : String) (s : ViewState) : ViewState :=
  { s with chainId := payload }

/-- The pure lookup `getNetworkName` (lines 159-170). -/
def getNetworkName (id : String) : String :=
  if id = MAINNET_CHAIN_ID then "Ethereum Mainnet"
  else if id = SEPOLIA_CHAIN_ID then "Sepolia Testnet"
  else if id = "0x1388" then "Mantle"
  else "Unknown Network"

/-- One operation on the view state: a user action invoked with the
provider handle either absent or present with the responses it gives on
this invocation, or a provider notification delivered to a handler. -/
inductive Op where
  | connectOp (p : Option ProviderBehaviour)
  | toggleChainOp (p : Option ProviderBehaviour)
  | addChainOp (p : Option ProviderBehaviour)
  | transferAccountOp (p : Option ProviderBehaviour)
  | disconnectOp (p : Option ProviderBehaviour)
  | accountsChangedOp (payload : List String)
  | chainChangedOp (payload : String)
deriving Repr

/-- Apply one operation to a view state, producing the new state and the
requests issued to the provider.  Event handlers issue no requests. -/
def step (op : Op) (s : ViewState) : ViewState × List Request :=
  match op with
  | .connectOp p => connect p s
  | .toggleChainOp p => toggleChain p s
  | .addChainOp p => addChain p s
  | .transferAccountOp p => transferAccount p s
  | .disconnectOp p => disconnect p s
  | .accountsChangedOp payload => (handleAccountsChanged payload s, [])
  | .chainChangedOp payload => (handleChainChanged payload s, [])

/-- States reachable from the initial state by any sequence of
operations. -/
inductive Reachable : ViewState → Prop where
  | init : Reachable initialState
  | next (op : Op) {s : ViewState} : Reachable s → Reachable (step op s).1

/-- The connection invariant of the spec: the connection flag is true
iff the account list is non-empty. -/
def accountsInv (s : ViewState) : Prop :=
  s.isConnected = true ↔ s.accounts ≠ []

instance (s : ViewState) : Decidable (accountsInv s) := by
  unfold accountsInv; infer_instance

/-! Concrete provider behaviours and states used when instantiating
theorems on concrete inputs. -/

/-- A provider that answers every request successfully, returning one
account and the Sepolia chain id. -/
def okBehaviour : ProviderBehaviour :=
  { accountsResult := .ok ["0xAbCd"], chainIdResult := .ok "0xaa36a7",
    switchResult := .ok (), addChainResult := .ok (),
    sendTxResult := .ok "0xhash" }

/-- A sample rejection error (user rejected the request). -/
def sampleError : ProviderError :=
  { message := "User rejected the request.", code := some 4001 }

/-- A provider that rejects the account request. -/
def accountsRejectedBehaviour : ProviderBehaviour :=
  { okBehaviour with accountsResult := .error sampleError }

/-- A provider that grants the account request but rejects the
subsequent chain-id request. -/
def chainIdRejectedBehaviour : ProviderBehaviour :=
  { okBehaviour with chainIdResult := .error sampleError }

/-- A provider whose account request succeeds with an empty list. -/
def emptyAccountsBehaviour : ProviderBehaviour :=
  { okBehaviour with accountsResult := .ok [] }

/-- A state with one connected account on Sepolia. -/
def connectedSepoliaState : ViewState :=
  { accounts := ["0xA"], chainId := "0xaa36a7", isConnected := true }

/-! Helper lemmas shared by several claim theorems. -/

lemma toggleChain_fst (p : Option ProviderBehaviour) (s : ViewState) :
    (toggleChain p s).1 = s := by
  cases p <;> rfl

lemma addChain_fst (p : Option ProviderBehaviour) (s : ViewState) :
    (addChain p s).1 = s := by
  cases p <;> rfl

lemma transferAccount_fst (p : Option ProviderBehaviour) (s : ViewState) :
    (transferAccount p s).1 = s := by
  cases p with
  | none => rfl
  | some q =>
    simp only [transferAccount]
    split
    · rfl
    · split <;> rfl

lemma handleAccountsChanged_chainId (l : List String) (s : ViewState) :
    (handleAccountsChanged l s).chainId = s.chainId := by
  unfold handleAccountsChanged
  split <;> rfl

/-- Claim C6: `getNetworkName` is a pure total function returning
"Ethereum Mainnet" for "0x1", "Sepolia Testnet" for "0xaa36a7",
"Mantle" for "0x1388", and "Unknown Network" for every other string,
including the empty string. -/
theorem C6_getNetworkName (id : String) :
    getNetworkName MAINNET_CHAIN_ID = "Ethereum Mainnet" ∧
    getNetworkName SEPOLIA_CHAIN_ID = "Sepolia Testnet" ∧
    getNetworkName "0x1388" = "Mantle" ∧
    getNetworkName "" = "Unknown Network" ∧
    (id ≠ MAINNET_CHAIN_ID → id ≠ SEPOLIA_CHAIN_ID → id ≠ "0x1388" →
      getNetworkName id = "Unknown Network") := by
  refine ⟨rfl, rfl, rfl, rfl, ?_⟩
  intro h1 h2 h3
  simp [getNetworkName, h1, h2, h3]

/-- Witness for C6 at the concrete unknown identifier "0xdead". -/
theorem C6_getNetworkName_witness :
    getNetworkName MAINNET_CHAIN_ID = "Ethereum Mainnet" ∧
    getNetworkName SEPOLIA_CHAIN_ID = "Sepolia Testnet" ∧
    getNetworkName "0x1388" = "Mantle" ∧
    getNetworkName "" = "Unknown Network" ∧
    getNetworkName "0xdead" = "Unknown Network" := by
  have h := C6_getNetworkName "0xdead"
  exact ⟨h.1, h.2.1, h.2.2.1, h.2.2.2.1,
    h.2.2.2.2 (by decide) (by decide) (by decide)⟩

/-- Claim C7: with no provider handle, each of the five actions leaves
any view state unchanged and issues no provider request; in particular
the state stays at its initial empty values. -/
theorem C7_no_provider (s : ViewState) :
    connect none s = (s, []) ∧
    toggleChain none s = (s, []) ∧
    addChain none s = (s, []) ∧
    transferAccount none s = (s, []) ∧
    disconnect none s = (s, []) :=
  ⟨rfl, rfl, rfl, rfl, rfl⟩

/-- Claim C8: with a provider handle present, `disconnect` always
resets the account list, chain id and connection flag to their initial
empty values, for every prior state and every provider behaviour, and
issues no provider request. -/
theorem C8_disconnect (p : ProviderBehaviour) (s : ViewState) :
    (disconnect (some p) s).1.accounts = [] ∧
    (disconnect (some p) s).1.chainId = "" ∧
    (disconnect (some p) s).1.isConnected = false ∧
    (disconnect (some p) s).2 = [] :=
  ⟨rfl, rfl, rfl, rfl⟩

/-- Claim C3: `transferAccount` issues a request iff a provider handle
exists, the account list is non-empty and the stored chain id is the
Sepolia id; and in that case it issues exactly one `eth_sendTransaction`
request from the first account to the fixed recipient with the fixed
value. -/
theorem C3_transferAccount (p : Option ProviderBehaviour) (s : ViewState) :
    ((transferAccount p s).2 ≠ [] ↔
      (p.isSome = true ∧ s.accounts ≠ [] ∧ s.chainId = SEPOLIA_CHAIN_ID)) ∧
    (∀ q a rest, p = some q → s.accounts = a :: rest →
      s.chainId = SEPOLIA_CHAIN_ID →
      (transferAccount p s).2 =
        [Request.eth_sendTransaction a TRANSFER_RECIPIENT TRANSFER_VALUE]) := by
  constructor
  · cases p with
    | none => simp [transferAccount]
    | some q =>
      simp only [transferAccount, Option.isSome_some, true_and]
      by_cases ha : s.accounts = []
      · simp [ha]
      · by_cases hc : s.chainId = SEPOLIA_CHAIN_ID
        · simp [ha, hc]
        · simp [ha, hc]
  · intro q a rest hp hacc hchain
    subst hp
    simp [transferAccount, hacc, hchain]

/-- Witness for C3: one account connected on Sepolia yields exactly the
fixed transaction request from that account. -/
theorem C3_transferAccount_witness :
    (transferAccount (some okBehaviour) connectedSepoliaState).2 =
      [Request.eth_sendTransaction "0xA" TRANSFER_RECIPIENT TRANSFER_VALUE] :=
  (C3_transferAccount (some okBehaviour) connectedSepoliaState).2
    okBehaviour "0xA" [] rfl rfl rfl

/-- Claim C4: with a provider present, `toggleChain` requests the
mainnet id when the stored chain id is the Sepolia id, requests the
Sepolia id when it is the mainnet id, and requests the Sepolia id when
it matches neither. -/
theorem C4_toggleChain (p : ProviderBehaviour) (s : ViewState) :
    (s.chainId = SEPOLIA_CHAIN_ID →
      (toggleChain (some p) s).2 =
        [Request.wallet_switchEthereumChain MAINNET_CHAIN_ID]) ∧
    (s.chainId = MAINNET_CHAIN_ID →
      (toggleChain (some p) s).2 =
        [Request.wallet_switchEthereumChain SEPOLIA_CHAIN_ID]) ∧
    (s.chainId ≠ SEPOLIA_CHAIN_ID → s.chainId ≠ MAINNET_CHAIN_ID →
      (toggleChain (some p) s).2 =
        [Request.wallet_switchEthereumChain SEPOLIA_CHAIN_ID]) := by
  refine ⟨?_, ?_, ?_⟩
  · intro h
    simp [toggleChain, h]
  · intro h
    have hne : s.chainId ≠ SEPOLIA_CHAIN_ID := by
      rw [h]; decide
    simp [toggleChain, hne]
  · intro h _
    simp [toggleChain, h]

/-- Witness for C4 at the three concrete stored chain ids "0xaa36a7",
"0x1" and "" (the initial state). -/
theorem C4_toggleChain_witness :
    (toggleChain (some okBehaviour) connectedSepoliaState).2 =
      [Request.wallet_switchEthereumChain MAINNET_CHAIN_ID] ∧
    (toggleChain (some okBehaviour)
        { connectedSepoliaState with chainId := "0x1" }).2 =
      [Request.wallet_switchEthereumChain SEPOLIA_CHAIN_ID] ∧
    (toggleChain (some okBehaviour) initialState).2 =
      [Request.wallet_switchEthereumChain SEPOLIA_CHAIN_ID] :=
  ⟨(C4_toggleChain okBehaviour connectedSepoliaState).1 rfl,
   (C4_toggleChain okBehaviour
      { connectedSepoliaState with chainId := "0x1" }).2.1 rfl,
   (C4_toggleChain okBehaviour initialState).2.2 (by decide) (by decide)⟩

/-- Claim C5: an accounts-changed notification with an empty payload
clears the account list and sets the connection flag false; a non-empty
payload replaces the account list and sets the flag true (the chain id
is untouched either way). -/
theorem C5_handleAccountsChanged (payload : List String) (s : ViewState) :
    (payload = [] → handleAccountsChanged payload s =
      { s with accounts := [], isConnected := false }) ∧
    (payload ≠ [] → handleAccountsChanged payload s =
      { s with accounts := payload, isConnected := true }) := by
  constructor
  · intro h
    subst h
    rfl
  · intro h
    have hp : payload.length > 0 := List.length_pos.mpr h
    simp [handleAccountsChanged, hp]

/-- Witness for C5 at the concrete payloads `[]` and `["0xB"]`. -/
theorem C5_handleAccountsChanged_witness :
    handleAccountsChanged [] connectedSepoliaState =
      { connectedSepoliaState with accounts := [], isConnected := false } ∧
    handleAccountsChanged ["0xB"] initialState =
      { initialState with accounts := ["0xB"], isConnected := true } :=
  ⟨(C5_handleAccountsChanged [] connectedSepoliaState).1 rfl,
   (C5_handleAccountsChanged ["0xB"] initialState).2 (by decide)⟩

/-- Claim C9: `transferAccount` never mutates the view state, for every
provider presence and behaviour (so in particular both when its
preconditions fail and when the transaction request succeeds or fails),
and its only provider effect is at most the single fixed
`eth_sendTransaction` request. -/
theorem C9_transferAccount_frame (p : Option ProviderBehaviour)
    (s : ViewState) :
    (transferAccount p s).1 = s ∧
    ((transferAccount p s).2 = [] ∨
      (transferAccount p s).2 =
        [Request.eth_sendTransaction (s.accounts.headD "")
          TRANSFER_RECIPIENT TRANSFER_VALUE]) := by
  refine ⟨transferAccount_fst p s, ?_⟩
  cases p with
  | none => exact Or.inl rfl
  | some q =>
    simp only [transferAccount]
    split
    · exact Or.inl rfl
    · split
      · exact Or.inl rfl
      · exact Or.inr rfl

/-- Claim C10: `toggleChain` and `addChain` never change the view
state; the chain-changed handler stores its payload verbatim and
touches nothing else; and among all operations, only `connect`,
`disconnect` and the chain-changed handler can change the stored
chain id. -/
theorem C10_chainId_frame (p : Option ProviderBehaviour)
    (payload : String) (s : ViewState) :
    (toggleChain p s).1 = s ∧
    (addChain p s).1 = s ∧
    handleChainChanged payload s = { s with chainId := payload } ∧
    (∀ op : Op, (step op s).1.chainId ≠ s.chainId →
      (∃ b, op = Op.connectOp (some b)) ∨
      (∃ q, op = Op.disconnectOp q) ∨
      (∃ c, op = Op.chainChangedOp c)) := by
  refine ⟨toggleChain_fst p s, addChain_fst p s, rfl, ?_⟩
  intro op h
  cases op with
  | connectOp q =>
    cases q with
    | none => exact absurd rfl h
    | some b => exact Or.inl ⟨b, rfl⟩
  | toggleChainOp q =>
    rw [show (step (Op.toggleChainOp q) s).1 = s from toggleChain_fst q s] at h
    exact absurd rfl h
  | addChainOp q =>
    rw [show (step (Op.addChainOp q) s).1 = s from addChain_fst q s] at h
    exact absurd rfl h
  | transferAccountOp q =>
    rw [show (step (Op.transferAccountOp q) s).1 = s from
      transferAccount_fst q s] at h
    exact absurd rfl h
  | disconnectOp q => exact Or.inr (Or.inl ⟨q, rfl⟩)
  | accountsChangedOp l =>
    rw [show (step (Op.accountsChangedOp l) s).1.chainId = s.chainId from
      handleAccountsChanged_chainId l s] at h
    exact absurd rfl h
  | chainChangedOp c => exact Or.inr (Or.inr ⟨c, rfl⟩)

/-- Witness for C10: instantiated at concrete inputs; the chain-changed
notification "0x1" does change the chain id of the initial state, and
it is indeed one of the three allowed operations. -/
theorem C10_chainId_frame_witness :
    (toggleChain (some okBehaviour) connectedSepoliaState).1 =
      connectedSepoliaState ∧
    ((∃ b, Op.chainChangedOp "0x1" = Op.connectOp (some b)) ∨
     (∃ q, Op.chainChangedOp "0x1" = Op.disconnectOp q) ∨
     (∃ c, Op.chainChangedOp "0x1" = Op.chainChangedOp c)) :=
  ⟨(C10_chainId_frame (some okBehaviour) "0x1" connectedSepoliaState).1,
   (C10_chainId_frame (some okBehaviour) "0x1" initialState).2.2.2
     (Op.chainChangedOp "0x1") (by decide)⟩

/-- Counterexample to claim C1 as stated: the state reached from the
initial state by a `connect` whose account request succeeds with an
empty list is reachable, has connection flag true, and has an empty
account list, so the biconditional fails on a reachable state. -/
theorem C1_counterexample :
    ¬ (∀ s : ViewState, Reachable s → accountsInv s) := by
  intro h
  have hr : Reachable
      (step (Op.connectOp (some emptyAccountsBehaviour)) initialState).1 :=
    Reachable.next _ Reachable.init
  exact absurd (h _ hr) (by decide)

/-- Claim C1 amended: the biconditional (connection flag true iff
account list non-empty) holds initially and is preserved by every
operation except a `connect` whose account request succeeds with an
empty list: that one sets the flag true while storing the empty
list. -/
theorem C1_amended_inv (op : Op) (s : ViewState) :
    accountsInv initialState ∧
    (accountsInv s →
      (∀ b : ProviderBehaviour, op = Op.connectOp (some b) →
        b.accountsResult ≠ Except.ok []) →
      accountsInv (step op s).1) := by
  refine ⟨by decide, ?_⟩
  intro hs hop
  cases op with
  | connectOp q =>
    cases q with
    | none => exact hs
    | some b =>
      have hne := hop b rfl
      simp only [step, connect]
      cases hb : b.accountsResult with
      | error e => exact hs
      | ok l =>
        have hl : l ≠ [] := by
          intro hnil
          exact hne (by rw [hb, hnil])
        cases hc : b.chainIdResult with
        | error e => exact ⟨fun _ => hl, fun _ => rfl⟩
        | ok c => exact ⟨fun _ => hl, fun _ => rfl⟩
  | toggleChainOp q =>
    rw [show (step (Op.toggleChainOp q) s).1 = s from toggleChain_fst q s]
    exact hs
  | addChainOp q =>
    rw [show (step (Op.addChainOp q) s).1 = s from addChain_fst q s]
    exact hs
  | transferAccountOp q =>
    rw [show (step (Op.transferAccountOp q) s).1 = s from
      transferAccount_fst q s]
    exact hs
  | disconnectOp q =>
    cases q with
    | none => exact hs
    | some b =>
      show accountsInv { accounts := [], chainId := "", isConnected := false }
      decide
  | accountsChangedOp l =>
    cases l with
    | nil =>
      show accountsInv { s with accounts := [], isConnected := false }
      unfold accountsInv
      simp
    | cons a rest =>
      show accountsInv (handleAccountsChanged (a :: rest) s)
      unfold accountsInv handleAccountsChanged
      simp
  | chainChangedOp c => exact hs

/-- Witness for C1 amended: a successful `connect` from the initial
state returning a non-empty account list re-establishes the
biconditional. -/
theorem C1_amended_inv_witness :
    accountsInv initialState ∧
    accountsInv (step (Op.connectOp (some okBehaviour)) initialState).1 := by
  have h := C1_amended_inv (Op.connectOp (some okBehaviour)) initialState
  refine ⟨h.1, h.2 (by decide) ?_⟩
  intro b hb he
  cases hb
  exact absurd he (by simp [okBehaviour])

/-- Counterexample to claim C2 as stated: starting from the initial
state, a `connect` whose account request succeeds but whose
chain-identifier request is rejected fails, yet changes the view
state. -/
theorem C2_counterexample :
    (connect (some chainIdRejectedBehaviour) initialState).1 ≠
      initialState := by
  decide

/-- Claim C2 amended: when the account request is rejected, `connect`
leaves the view state unchanged; when the account request succeeds with
list `l` but the chain-identifier request is rejected, the account list
has already become `l` and the connection flag true, with only the
chain identifier left unchanged. -/
theorem C2_amended_connect (p : ProviderBehaviour) (s : ViewState) :
    (∀ e, p.accountsResult = Except.error e → (connect (some p) s).1 = s) ∧
    (∀ l e, p.accountsResult = Except.ok l →
      p.chainIdResult = Except.error e →
      (connect (some p) s).1 =
        { s with accounts := l, isConnected := true }) := by
  constructor
  · intro e he
    simp [connect, he]
  · intro l e hl he
    simp [connect, hl, he]

/-- Witness for C2 amended at concrete behaviours: a rejected account
request leaves the state unchanged; a rejected chain-id request after a
granted account request leaves the granted accounts and flag in
place. -/
theorem C2_amended_connect_witness :
    (connect (some accountsRejectedBehaviour) connectedSepoliaState).1 =
      connectedSepoliaState ∧
    (connect (some chainIdRejectedBehaviour) initialState).1 =
      { initialState with accounts := ["0xAbCd"], isConnected := true } :=
  ⟨(C2_amended_connect accountsRejectedBehaviour connectedSepoliaState).1
      sampleError rfl,
   (C2_amended_connect chainIdRejectedBehaviour initialState).2
      ["0xAbCd"] sampleError rfl rfl⟩

end Connector
